import Mathlib

/-
Shallow embedding of src/app.py (a Streamlit front-end over the NEIS
school-information REST API).

Modelling conventions:
* JSON values are the inductive `JVal`; `pandas.DataFrame(rows)` built from a
  JSON `row` array is modelled as the underlying `List JVal` of records.
* The Python subscript / `in` operators on JSON data are embedded as
  `Except`-valued functions that mirror CPython semantics (KeyError,
  IndexError, TypeError on the shapes this program can meet).
* The HTTP layer is an oracle `HttpResult` passed as an argument: either the
  `requests.get` call raises (`netFail`), or it yields a status code and a
  body that is unparseable or some JSON value.
* Side effects (the outbound request itself, `st.error`, `st.info`,
  `st.success`, rendering) are recorded in an `Effect` trace.
* `st.session_state` is the `Session` structure; each button press is an
  `Event`, interpreted by a step function mirroring the handler code.
-/

namespace App

/-- JSON values as returned by `response.json()`. -/
inductive JVal where
  | str (s : String)
  | num (n : Int)
  | arr (elems : List JVal)
  | obj (fields : List (String × JVal))

/-- Python `key in data` for a string `key` (line 39 / line 66):
membership of the key for a dict, membership of the string for a list,
substring test for a string, TypeError for a number. -/
def pyContains (data : JVal) (key : String) : Except String Bool :=
  match data with
  | .obj fields => .ok (fields.any (fun p => p.1 == key))
  | .arr elems => .ok (elems.any (fun e => match e with | .str s => s == key | _ => false))
  | .str s => .ok ((s.splitOn key).length != 1)
  | .num _ => .error "TypeError: argument of type int is not iterable"

/-- Python `data[key]` for a string `key`: dict lookup (KeyError when the key
is missing), TypeError for lists/strings/numbers. -/
def pySubscriptStr (data : JVal) (key : String) : Except String JVal :=
  match data with
  | .obj fields =>
    match fields.find? (fun p => p.1 == key) with
    | some p => .ok p.2
    | none => .error ("KeyError: " ++ key)
  | .arr _ => .error "TypeError: list indices must be integers"
  | .str _ => .error "TypeError: string indices must be integers"
  | .num _ => .error "TypeError: int is not subscriptable"

/-- Python `data[i]` for a nonnegative int literal `i` (the `[1]` on
lines 39-40 / 66-67): list indexing with IndexError past the end, character
indexing for strings, KeyError for dicts with only string keys. -/
def pyIndexInt (data : JVal) (i : Nat) : Except String JVal :=
  match data with
  | .arr elems =>
    match elems.get? i with
    | some e => .ok e
    | none => .error "IndexError: list index out of range"
  | .str s =>
    match s.data.get? i with
    | some c => .ok (.str (String.mk [c]))
    | none => .error "IndexError: string index out of range"
  | .obj _ => .error ("KeyError: " ++ toString i)
  | .num _ => .error "TypeError: int is not subscriptable"

/-- `pd.DataFrame(x)` applied to the value stored under `row`, modelled as the
record list when `x` is a JSON array. A scalar argument raises ValueError in
pandas; the dict-of-columns constructor is approximated by the same error
(the upstream `row` field is always an array, and every branch below feeds a
surrounding `except` clause anyway). -/
def dataFrameOfRows (x : JVal) : Except String (List JVal) :=
  match x with
  | .arr elems => .ok elems
  | _ => .error "ValueError: DataFrame constructor not properly called"

/-- The possible outcomes of the `requests.get` call, as seen by the
`try` block: the call raises, or returns a response with a status code and a
body that `response.json()` either fails or succeeds to parse. -/
inductive Body where
  | unparseable
  | json (data : JVal)

inductive HttpResult where
  | netFail
  | resp (status : Nat) (body : Body)

/-- The body of the `try` block shared by `fetch_school_info`
(lines 35-41, topKey = "schoolInfo") and `fetch_meal_info`
(lines 62-68, topKey = "mealServiceDietInfo"):
`raise_for_status` (raises on 4xx/5xx), `response.json()`, then
`if topKey in data and 'row' in data[topKey][1]: return DataFrame(data[topKey][1]['row'])`
`return DataFrame()`. An `.error` value is the exception reaching the
`except` clause. -/
def evalFetchBody (topKey : String) (net : HttpResult) : Except String (List JVal) :=
  match net with
  | .netFail => .error "ConnectionError"
  | .resp status body =>
    if 400 ≤ status ∧ status < 600 then
      .error ("HTTPError: " ++ toString status)
    else
      match body with
      | .unparseable => .error "JSONDecodeError"
      | .json data =>
        match pyContains data topKey with
        | .error e => .error e
        | .ok false => .ok []
        | .ok true =>
          match pySubscriptStr data topKey with
          | .error e => .error e
          | .ok top =>
            match pyIndexInt top 1 with
            | .error e => .error e
            | .ok second =>
              match pyContains second "row" with
              | .error e => .error e
              | .ok false => .ok []
              | .ok true =>
                match pySubscriptStr second "row" with
                | .error e => .error e
                | .ok rowsVal => dataFrameOfRows rowsVal

/-- Python truthiness of an optional string (`if school_name:` etc.,
lines 27-32 and line 98): `None` and `""` are falsy. -/
def pyTruthy : Option String → Bool
  | none => false
  | some s => s != ""

/-- One optional query parameter: included exactly when the filter value is
truthy (lines 27-32). -/
def optParam (pname : String) (v : Option String) : List (String × String) :=
  match v with
  | some s => if s != "" then [(pname, s)] else []
  | none => []

/-- The `KEY` entry of the params dict. `requests` omits parameters whose
value is `None`, so an absent credential never reaches the query string. -/
def keyParam : Option String → List (String × String)
  | some k => [("KEY", k)]
  | none => []

/-- The params dict built by `fetch_school_info` (lines 20-32), in insertion
order, as it reaches the query string. -/
def schoolParams (key school_name school_type region : Option String) :
    List (String × String) :=
  keyParam key ++ [("Type", "json"), ("pIndex", "1"), ("pSize", "100")]
    ++ optParam "SCHUL_NM" school_name
    ++ optParam "SCHUL_KND_SC_NM" school_type
    ++ optParam "LCTN_SC_NM" region

/-- A calendar date, standing in for `datetime.now()` / the date picker. -/
structure Date where
  year : Nat
  month : Nat
  day : Nat
deriving DecidableEq

/-- Left-pad the decimal digits of `n` with zeros to width `w`. -/
def padZeros (w : Nat) (n : Nat) : String :=
  let s := toString n
  String.mk (List.replicate (w - s.length) '0') ++ s

/-- `strftime("%Y%m%d")` (lines 51 and 139): the YYYYMMDD rendering of a
date. -/
def strftimeYmd (d : Date) : String :=
  padZeros 4 d.year ++ padZeros 2 d.month ++ padZeros 2 d.day

/-- Observable side effects of one user action. -/
inductive Effect where
  | httpGetSchool (params : List (String × String))
  | httpGetMeal (key : Option String) (office school : JVal) (mlsv : String)
  | errorMsg (msg : String)
  | infoMsg (msg : String)
  | successMsg (msg : String)
  | showTable (rows : List JVal)
  | subheader (msg : String)
  | writeText (msg : String)

/-- What a fetch function hands back: the DataFrame contents plus the effect
trace (the attempted HTTP request, and `st.error` on failure). -/
structure FetchResult where
  rows : List JVal
  effects : List Effect

/-- Error-message prefix of line 43. -/
def schoolErrHead : String := "데이터를 가져오는 중 오류가 발생했습니다: "

/-- Error-message prefix of line 70. -/
def mealErrHead : String := "급식 정보를 가져오는 중 오류가 발생했습니다: "

/-- `fetch_school_info` (lines 16-44). The request is always attempted; an
exception anywhere in the `try` block is caught, reported via `st.error`, and
an empty DataFrame is returned. -/
def fetch_school_info (key school_name school_type region : Option String)
    (net : HttpResult) : FetchResult :=
  let ps := schoolParams key school_name school_type region
  match evalFetchBody "schoolInfo" net with
  | .ok rows => ⟨rows, [.httpGetSchool ps]⟩
  | .error e => ⟨[], [.httpGetSchool ps, .errorMsg (schoolErrHead ++ e)]⟩

/-- `fetch_meal_info` (lines 46-71). `date` defaults to
`datetime.now().strftime("%Y%m%d")` when the caller passes `None`; `now` is
the system clock reading at that moment. -/
def fetch_meal_info (key : Option String) (now : Date) (office school : JVal)
    (date : Option String) (net : HttpResult) : FetchResult :=
  let mlsv := date.getD (strftimeYmd now)
  match evalFetchBody "mealServiceDietInfo" net with
  | .ok rows => ⟨rows, [.httpGetMeal key office school mlsv]⟩
  | .error e => ⟨[], [.httpGetMeal key office school mlsv,
                      .errorMsg (mealErrHead ++ e)]⟩

/-- `st.session_state`: `schools_df` is `none` while the key has never been
assigned (`'schools_df' in st.session_state` is false), `some rows`
afterwards. -/
structure Session where
  schools_df : Option (List JVal)

/-- A fresh Streamlit session has no `schools_df` key. -/
def initSession : Session := ⟨none⟩

/-- Whether a record contributes no column to `pd.DataFrame(rows)`. -/
def rowWidthZero : JVal → Bool
  | .obj [] => true
  | .arr [] => true
  | _ => false

/-- `df.empty` for a DataFrame built from a list of records: true when either
axis has length zero, i.e. there are no records or no record carries a
column. -/
def dfEmpty (rows : List JVal) : Bool :=
  rows.isEmpty || rows.all rowWidthZero

/-- Message of line 99. -/
def cfgErrorMsg : String := ".env 파일에 NEIS_API_KEY를 설정해주세요"

/-- Message of line 111. -/
def noMatchMsg : String := "검색 조건에 맞는 학교가 없습니다"

/-- Message of line 151. -/
def searchFirstMsg : String := "먼저 '학교 정보 검색' 탭에서 학교를 검색해주세요"

/-- Message of line 149. -/
def noMealMsg : String := "해당 날짜의 급식 정보가 없습니다"

/-- The `school_search_button` handler (lines 97-111): block with a
configuration error when the credential is falsy; otherwise fetch, and store
the result in the session only when the DataFrame is non-empty. -/
def school_search_step (key : Option String) (s : Session)
    (school_name school_type region : String) (net : HttpResult) :
    Session × List Effect :=
  if !(pyTruthy key) then
    (s, [.errorMsg cfgErrorMsg])
  else
    let fr := fetch_school_info key (some school_name) (some school_type)
      (some region) net
    if !(dfEmpty fr.rows) then
      ({ schools_df := some fr.rows },
        fr.effects ++ [.successMsg (toString fr.rows.length ++ "개의 학교를 찾았습니다"),
                       .showTable fr.rows])
    else
      (s, fr.effects ++ [.infoMsg noMatchMsg])

/-- The options of the school `selectbox` (line 121):
`schools_df['SCHUL_NM'].tolist()` restricted to rows whose `SCHUL_NM` is a
string (a row missing the column yields `NaN`, which can never win the later
`==` comparison, so it leads to no request). -/
def schoolNames (rows : List JVal) : List String :=
  rows.filterMap (fun r =>
    match pySubscriptStr r "SCHUL_NM" with
    | .ok (.str v) => some v
    | _ => none)

/-- `schools_df[schools_df['SCHUL_NM'] == selected].iloc[0]` (line 125): the
first stored row whose `SCHUL_NM` equals the selection. -/
def findRowByName (rows : List JVal) (sel : String) : Option JVal :=
  rows.find? (fun r =>
    match pySubscriptStr r "SCHUL_NM" with
    | .ok (.str v) => v == sel
    | _ => false)

/-- The display loop of lines 145-147: a subheader from `MLSV_YMD` and the
menu text with every `<br/>` replaced by a newline. A KeyError (or a
non-string `DDISH_NM`, whose `.replace` raises AttributeError) aborts the
loop with an uncaught exception, rendering nothing further. -/
def displayMeals (pyReplaceBr : String → String) : List JVal → List Effect
  | [] => []
  | m :: ms =>
    match pySubscriptStr m "MLSV_YMD" with
    | .error _ => []
    | .ok (.str ymd) =>
      Effect.subheader (ymd ++ " 급식 메뉴") ::
        match pySubscriptStr m "DDISH_NM" with
        | .ok (.str t) => Effect.writeText (pyReplaceBr t) :: displayMeals pyReplaceBr ms
        | _ => []
    | .ok _ => []

/-- The five characters of the upstream line-break marker `"<br/>"`. -/
def brMarker : List Char := ['<', 'b', 'r', '/', '>']

/-- Python `text.replace("<br/>", "\n")` on the character list: scan left to
right, replacing each non-overlapping occurrence of the marker. -/
def pyReplaceL (l : List Char) : List Char :=
  match l with
  | [] => []
  | c :: cs =>
    if (c :: cs).take 5 = brMarker then
      '\n' :: pyReplaceL ((c :: cs).drop 5)
    else
      c :: pyReplaceL cs
termination_by l.length
decreasing_by
  all_goals simp only [List.length_drop, List.length_cons]
  · omega
  · omega

/-- `meal['DDISH_NM'].replace("<br/>", "\n")` (line 147). -/
def pyReplaceBr (s : String) : String :=
  String.mk (pyReplaceL s.data)

/-- The number of (non-overlapping) occurrences of `"<br/>"` in a character
list. Because no proper suffix of the marker is one of its prefixes, the
occurrences cannot overlap, so counting marker-prefixed tails is exactly
Python's occurrence count. -/
def countBrL (l : List Char) : Nat :=
  l.tails.countP (fun t => t.take 5 == brMarker)

/-- The `meal_search_button` section of tab 2 (lines 118-149): reachable UI
only when a non-empty school table is stored; the selection must be one of
the selectbox options; the two school codes are read from the first matching
stored row at the call site (a KeyError there crashes before any request).
`mealDate` is the date-picker value, `now` the system clock. -/
def meal_search_step (key : Option String) (s : Session) (sel : String)
    (mealDate now : Date) (net : HttpResult) : Session × List Effect :=
  match s.schools_df with
  | none => (s, [.infoMsg searchFirstMsg])
  | some rows =>
    if dfEmpty rows then
      (s, [.infoMsg searchFirstMsg])
    else if sel ∈ schoolNames rows then
      if sel == "" then (s, [])
      else
        match findRowByName rows sel with
        | none => (s, [])
        | some row =>
          match pySubscriptStr row "ATPT_OFCDC_SC_CODE",
                pySubscriptStr row "SD_SCHUL_CODE" with
          | .ok office, .ok school =>
            let fr := fetch_meal_info key now office school
              (some (strftimeYmd mealDate)) net
            if !(dfEmpty fr.rows) then
              (s, fr.effects ++ [.successMsg "급식 정보를 찾았습니다"]
                ++ displayMeals pyReplaceBr fr.rows)
            else
              (s, fr.effects ++ [.infoMsg noMealMsg])
          | _, _ => (s, [])
    else (s, [])

/-- One user action: a press of the school-search button or of the
meal-lookup button (with the surrounding widget values). -/
inductive Event where
  | schoolSearch (school_name school_type region : String) (net : HttpResult)
  | mealSearch (sel : String) (mealDate now : Date) (net : HttpResult)

/-- Interpret one event against the session. -/
def step (key : Option String) (s : Session) : Event → Session × List Effect
  | .schoolSearch n t r net => school_search_step key s n t r net
  | .mealSearch sel d now net => meal_search_step key s sel d now net

/-- Interpret a whole session: a sequence of user actions from a given
state, collecting all effects. -/
def run (key : Option String) (s : Session) : List Event → Session × List Effect
  | [] => (s, [])
  | e :: es =>
    let r1 := step key s e
    let r2 := run key r1.1 es
    (r2.1, r1.2 ++ r2.2)

/-- Whether an effect is an outbound HTTP request. -/
def isHttp : Effect → Bool
  | .httpGetSchool _ => true
  | .httpGetMeal _ _ _ _ => true
  | _ => false

/-! ### Helper lemmas -/

theorem countBrL_cons (c : Char) (cs : List Char) :
    countBrL (c :: cs) = (if (c :: cs).take 5 = brMarker then 1 else 0) + countBrL cs := by
  simp only [countBrL, List.tails_cons, List.countP_cons, beq_iff_eq]
  omega

theorem countBrL_marker (rest : List Char) :
    countBrL ('<' :: 'b' :: 'r' :: '/' :: '>' :: rest) = 1 + countBrL rest := by
  rw [countBrL_cons, countBrL_cons, countBrL_cons, countBrL_cons, countBrL_cons]
  simp [brMarker, List.take]

theorem marker_shape (c : Char) (cs : List Char)
    (h : (c :: cs).take 5 = brMarker) :
    c = '<' ∧ cs = 'b' :: 'r' :: '/' :: '>' :: cs.drop 4 := by
  rcases cs with _ | ⟨a, cs⟩
  · simp [brMarker] at h
  rcases cs with _ | ⟨b, cs⟩
  · simp [brMarker] at h
  rcases cs with _ | ⟨d, cs⟩
  · simp [brMarker] at h
  rcases cs with _ | ⟨e, cs⟩
  · simp [brMarker] at h
  simp [brMarker, List.take] at h
  obtain ⟨h1, h2, h3, h4, h5⟩ := h
  subst h1; subst h2; subst h3; subst h4; subst h5
  simp

theorem pyReplaceL_count_nl_aux (n : Nat) :
    ∀ l : List Char, l.length ≤ n →
      (pyReplaceL l).count '\n' = l.count '\n' + countBrL l := by
  induction n with
  | zero =>
    intro l hl
    have : l = [] := by
      cases l with
      | nil => rfl
      | cons c cs => simp at hl
    subst this
    simp [pyReplaceL, countBrL, List.countP_cons, brMarker]
  | succ n ih =>
    intro l hl
    cases l with
    | nil => simp [pyReplaceL, countBrL, List.countP_cons, brMarker]
    | cons c cs =>
      by_cases hm : (c :: cs).take 5 = brMarker
      · obtain ⟨hc, hcs⟩ := marker_shape c cs hm
        subst hc
        rw [hcs] at hl ⊢
        set rest := cs.drop 4 with hrest
        rw [pyReplaceL, if_pos (by simp [brMarker, List.take])]
        simp only [List.drop_succ_cons, List.drop_zero]
        have hlen : rest.length ≤ n := by
          simp only [List.length_cons] at hl
          omega
        rw [List.count_cons]
        rw [ih rest hlen]
        rw [countBrL_marker]
        rw [List.count_cons, List.count_cons, List.count_cons, List.count_cons]
        simp
        omega
      · rw [pyReplaceL, if_neg hm]
        rw [countBrL_cons, if_neg hm]
        have hlen : cs.length ≤ n := by
          simp only [List.length_cons] at hl
          omega
        rw [List.count_cons, List.count_cons, ih cs hlen]
        cases h : (c == '\n') <;> (simp [h]; try omega)

theorem pyReplaceL_count_nl (l : List Char) :
    (pyReplaceL l).count '\n' = l.count '\n' + countBrL l :=
  pyReplaceL_count_nl_aux l.length l (Nat.le_refl _)

theorem take_pyReplaceL_aux (n : Nat) :
    ∀ l : List Char, l.length ≤ n → ∀ p : List Char, '\n' ∉ p →
      (pyReplaceL l).take p.length = p → l.take p.length = p := by
  induction n with
  | zero =>
    intro l hl p hnp hp
    have : l = [] := by
      cases l with
      | nil => rfl
      | cons c cs => simp at hl
    subst this
    simp [pyReplaceL] at hp
    simp [hp]
  | succ n ih =>
    intro l hl p hnp hp
    cases l with
    | nil =>
      simp [pyReplaceL] at hp
      simp [hp]
    | cons c cs =>
      by_cases hm : (c :: cs).take 5 = brMarker
      · rw [pyReplaceL, if_pos hm] at hp
        cases p with
        | nil => simp
        | cons d p' =>
          simp only [List.length_cons, List.take_succ_cons, List.cons.injEq] at hp
          exact absurd (hp.1 ▸ List.mem_cons_self d p') (by simp_all)
      · rw [pyReplaceL, if_neg hm] at hp
        cases p with
        | nil => simp
        | cons d p' =>
          simp only [List.length_cons, List.take_succ_cons, List.cons.injEq] at hp ⊢
          have hlen : cs.length ≤ n := by
            simp only [List.length_cons] at hl
            omega
          have hnp' : '\n' ∉ p' := fun hmem => hnp (List.mem_cons_of_mem _ hmem)
          exact ⟨hp.1, ih cs hlen p' hnp' hp.2⟩

theorem pyReplaceL_no_marker_aux (n : Nat) :
    ∀ l : List Char, l.length ≤ n → countBrL (pyReplaceL l) = 0 := by
  induction n with
  | zero =>
    intro l hl
    have : l = [] := by
      cases l with
      | nil => rfl
      | cons c cs => simp at hl
    subst this
    simp [pyReplaceL, countBrL, List.countP_cons, brMarker]
  | succ n ih =>
    intro l hl
    cases l with
    | nil => simp [pyReplaceL, countBrL, List.countP_cons, brMarker]
    | cons c cs =>
      by_cases hm : (c :: cs).take 5 = brMarker
      · obtain ⟨hc, hcs⟩ := marker_shape c cs hm
        rw [pyReplaceL, if_pos hm]
        rw [countBrL_cons]
        rw [if_neg (by
          intro hcon
          rw [List.take_succ_cons] at hcon
          simp [brMarker] at hcon)]
        rw [Nat.zero_add]
        apply ih
        simp only [List.length_drop, List.length_cons] at hl ⊢
        omega
      · rw [pyReplaceL, if_neg hm]
        have hlen : cs.length ≤ n := by
          simp only [List.length_cons] at hl; omega
        rw [countBrL_cons]
        rw [if_neg (by
          intro hcon
          obtain ⟨hc, htail⟩ := marker_shape c (pyReplaceL cs) hcon
          have h4 : (pyReplaceL cs).take 4 = ['b', 'r', '/', '>'] := by
            rw [htail]; rfl
          have := take_pyReplaceL_aux cs.length cs (Nat.le_refl _)
            ['b', 'r', '/', '>'] (by decide) h4
          apply hm
          rcases cs with _ | ⟨a, cs⟩
          · simp at this
          rcases cs with _ | ⟨b, cs⟩
          · simp [List.take] at this
          rcases cs with _ | ⟨d, cs⟩
          · simp [List.take] at this
          rcases cs with _ | ⟨e, cs⟩
          · simp [List.take] at this
          simp [List.take] at this
          obtain ⟨h1, h2, h3, h4p⟩ := this
          subst h1; subst h2; subst h3; subst h4p; subst hc
          simp [brMarker, List.take])]
        rw [Nat.zero_add]
        exact ih cs hlen

theorem pyReplaceL_no_marker (l : List Char) : countBrL (pyReplaceL l) = 0 :=
  pyReplaceL_no_marker_aux l.length l (Nat.le_refl _)

theorem dfEmpty_nil : dfEmpty [] = true := rfl

theorem school_step_keyless (s : Session) (n t r : String) (net : HttpResult) :
    school_search_step none s n t r net = (s, [Effect.errorMsg cfgErrorMsg]) := rfl

theorem meal_step_keyless_empty (key : Option String) (s : Session)
    (sel : String) (d now : Date) (net : HttpResult) (hs : s.schools_df = none) :
    meal_search_step key s sel d now net = (s, [Effect.infoMsg searchFirstMsg]) := by
  unfold meal_search_step
  rw [hs]

theorem meal_step_fst (key : Option String) (s : Session) (sel : String)
    (d now : Date) (net : HttpResult) :
    (meal_search_step key s sel d now net).1 = s := by
  unfold meal_search_step
  rcases s with ⟨_ | rows⟩
  · rfl
  · simp only
    split
    · rfl
    · split
      · split
        · rfl
        · split
          · rfl
          · split
            · split <;> rfl
            · rfl
      · rfl

theorem run_keyless (evs : List Event) :
    ∀ s : Session, s.schools_df = none →
      (run none s evs).1.schools_df = none
        ∧ (run none s evs).2.filter isHttp = [] := by
  induction evs with
  | nil => intro s hs; exact ⟨hs, rfl⟩
  | cons e es ih =>
    intro s hs
    cases e with
    | schoolSearch n t r net =>
      have h1 : step none s (.schoolSearch n t r net)
          = (s, [Effect.errorMsg cfgErrorMsg]) := school_step_keyless s n t r net
      simp only [run, h1, List.filter_append]
      obtain ⟨ih1, ih2⟩ := ih s hs
      exact ⟨ih1, by simp [ih2, isHttp]⟩
    | mealSearch sel d now net =>
      have h1 : step none s (.mealSearch sel d now net)
          = (s, [Effect.infoMsg searchFirstMsg]) :=
        meal_step_keyless_empty none s sel d now net hs
      simp only [run, h1, List.filter_append]
      obtain ⟨ih1, ih2⟩ := ih s hs
      exact ⟨ih1, by simp [ih2, isHttp]⟩


theorem mem_optParam (pname : String) (o : Option String) (v : String) :
    (pname, v) ∈ optParam pname o ↔ o = some v ∧ v ≠ "" := by
  cases o with
  | none => simp [optParam]
  | some u =>
    by_cases h : u = ""
    · subst h
      simp [optParam]
      exact fun hv => hv.symm
    · simp [optParam, h]
      constructor
      · rintro rfl; exact ⟨rfl, h⟩
      · rintro ⟨h1, _⟩; exact h1.symm

theorem notMem_optParam (pname qname : String) (h : pname ≠ qname)
    (o : Option String) (v : String) :
    (pname, v) ∉ optParam qname o := by
  cases o with
  | none => simp [optParam]
  | some u =>
    by_cases hu : u = "" <;> simp [optParam, hu, h]

theorem httpGetMeal_notMem_displayMeals (f : String → String) (ms : List JVal)
    (k : Option String) (o sc : JVal) (m : String) :
    Effect.httpGetMeal k o sc m ∉ displayMeals f ms := by
  induction ms with
  | nil => simp [displayMeals]
  | cons r ms ih =>
    simp only [displayMeals]
    split
    · simp
    · split
      · simp [List.mem_cons, ih]
      · simp
    · simp

/-! ### Concrete sample data for witnesses and counterexamples -/

/-- A school record of the shape the upstream API returns. -/
def sampleRow : JVal :=
  .obj [("SCHUL_NM", .str "한가람고등학교"),
        ("ATPT_OFCDC_SC_CODE", .str "B10"),
        ("SD_SCHUL_CODE", .str "7010083")]

/-- A 200 response whose payload carries the expected nested `row` array. -/
def rowsNet (topKey : String) (rows : List JVal) : HttpResult :=
  .resp 200 (.json (.obj [(topKey, .arr [.num 0, .obj [("row", .arr rows)]])]))

/-- A 200 response without the nested collection (the upstream "no matches"
shape). -/
def noMatchNet : HttpResult :=
  .resp 200 (.json (.obj [("RESULT", .obj [("CODE", .str "INFO-200")])]))


/-! ### Claim theorems -/

/-- C1: if the API key is absent from the environment at startup, no outbound
HTTP request is ever issued on either query path during the whole session,
and every school-search action is blocked with the configuration error
message before any call; the meal-lookup control can never produce a request
because the stored school collection stays absent. -/
theorem C1_key_absent_no_http :
    (∀ evs : List Event,
      (run none initSession evs).2.filter isHttp = []
        ∧ (run none initSession evs).1.schools_df = none)
    ∧ (∀ (s : Session) (n t r : String) (net : HttpResult),
      school_search_step none s n t r net = (s, [Effect.errorMsg cfgErrorMsg])) := by
  constructor
  · intro evs
    obtain ⟨h1, h2⟩ := run_keyless evs initSession rfl
    exact ⟨h2, h1⟩
  · exact school_step_keyless

/-- C2 counterexample: a successful school query (HTTP 200, well-formed
payload without the nested collection, no error surfaced) that returns the
empty record set does NOT replace a previously stored non-empty collection,
contradicting the claim that the most recent successful search always wins. -/
theorem C2_counterexample :
    (fetch_school_info (some "k") (some "없는학교") (some "") (some "") noMatchNet).rows = []
    ∧ (fetch_school_info (some "k") (some "없는학교") (some "") (some "") noMatchNet).effects
        = [Effect.httpGetSchool (schoolParams (some "k") (some "없는학교") (some "") (some ""))]
    ∧ (school_search_step (some "k") ⟨some [sampleRow]⟩ "없는학교" "" "" noMatchNet).1.schools_df
        = some [sampleRow]
    ∧ some [sampleRow] ≠ some ([] : List JVal) := by
  refine ⟨rfl, rfl, rfl, ?_⟩
  simp

/-- C2 amended: a successful school query whose resulting DataFrame is
non-empty replaces the stored collection (last non-empty search wins); a
query whose resulting DataFrame is empty leaves the session state unchanged
and only shows a message. -/
theorem C2_amended_nonempty_search_replaces :
    ∀ (key : Option String) (s : Session) (n t r : String) (net : HttpResult),
      pyTruthy key = true →
      (dfEmpty (fetch_school_info key (some n) (some t) (some r) net).rows = false →
        (school_search_step key s n t r net).1.schools_df
          = some (fetch_school_info key (some n) (some t) (some r) net).rows)
      ∧ (dfEmpty (fetch_school_info key (some n) (some t) (some r) net).rows = true →
        (school_search_step key s n t r net).1 = s) := by
  intro key s n t r net hk
  constructor <;> intro hdf <;>
    simp [school_search_step, hk, hdf]

/-- C2 witness: a concrete non-empty successful search stores exactly its
result. -/
theorem C2_witness :
    pyTruthy (some "k") = true
    ∧ dfEmpty (fetch_school_info (some "k") (some "한가람") (some "") (some "")
        (rowsNet "schoolInfo" [sampleRow])).rows = false
    ∧ (school_search_step (some "k") initSession "한가람" "" ""
        (rowsNet "schoolInfo" [sampleRow])).1.schools_df
      = some (fetch_school_info (some "k") (some "한가람") (some "") (some "")
        (rowsNet "schoolInfo" [sampleRow])).rows :=
  ⟨rfl, rfl,
    (C2_amended_nonempty_search_replaces (some "k") initSession "한가람" "" ""
      (rowsNet "schoolInfo" [sampleRow]) rfl).1 rfl⟩

/-- C3 counterexample: a filter field that is supplied but equal to the empty
string is dropped from the outbound request (Python truthiness), so the
request does not contain exactly the supplied optional fields. -/
theorem C3_counterexample :
    (some "" : Option String) ≠ none
    ∧ schoolParams (some "k") (some "") none none
        = [("KEY", "k"), ("Type", "json"), ("pIndex", "1"), ("pSize", "100")]
    ∧ ("SCHUL_NM", "") ∉ schoolParams (some "k") (some "") none none := by
  refine ⟨by simp, rfl, ?_⟩
  decide

/-- C3 amended: the outbound school request always carries KEY, Type=json,
pIndex=1, pSize=100, and an optional filter parameter appears with an
unmodified value exactly when that filter was supplied as a non-empty
string; with all three filters absent (or empty) only the four base
parameters are sent. -/
theorem C3_amended_request_params :
    ∀ (key v : String) (n t r : Option String),
      (("SCHUL_NM", v) ∈ schoolParams (some key) n t r ↔ n = some v ∧ v ≠ "")
      ∧ (("SCHUL_KND_SC_NM", v) ∈ schoolParams (some key) n t r ↔ t = some v ∧ v ≠ "")
      ∧ (("LCTN_SC_NM", v) ∈ schoolParams (some key) n t r ↔ r = some v ∧ v ≠ "")
      ∧ ("KEY", key) ∈ schoolParams (some key) n t r
      ∧ ("Type", "json") ∈ schoolParams (some key) n t r
      ∧ ("pIndex", "1") ∈ schoolParams (some key) n t r
      ∧ ("pSize", "100") ∈ schoolParams (some key) n t r
      ∧ schoolParams (some key) none none none
          = [("KEY", key), ("Type", "json"), ("pIndex", "1"), ("pSize", "100")] := by
  intro key v n t r
  have hbase : schoolParams (some key) n t r
      = ("KEY", key) :: ("Type", "json") :: ("pIndex", "1") :: ("pSize", "100")
        :: (optParam "SCHUL_NM" n ++ optParam "SCHUL_KND_SC_NM" t
            ++ optParam "LCTN_SC_NM" r) := by
    simp [schoolParams, keyParam]
  refine ⟨?_, ?_, ?_, ?_, ?_, ?_, ?_, rfl⟩
  · rw [hbase]
    simp [List.mem_cons, List.mem_append, Prod.mk.injEq, mem_optParam,
      notMem_optParam "SCHUL_NM" "SCHUL_KND_SC_NM" (by decide) t v,
      notMem_optParam "SCHUL_NM" "LCTN_SC_NM" (by decide) r v]
  · rw [hbase]
    simp [List.mem_cons, List.mem_append, Prod.mk.injEq, mem_optParam,
      notMem_optParam "SCHUL_KND_SC_NM" "SCHUL_NM" (by decide) n v,
      notMem_optParam "SCHUL_KND_SC_NM" "LCTN_SC_NM" (by decide) r v]
  · rw [hbase]
    simp [List.mem_cons, List.mem_append, Prod.mk.injEq, mem_optParam,
      notMem_optParam "LCTN_SC_NM" "SCHUL_NM" (by decide) n v,
      notMem_optParam "LCTN_SC_NM" "SCHUL_KND_SC_NM" (by decide) t v]
  · rw [hbase]; simp
  · rw [hbase]; simp
  · rw [hbase]; simp
  · rw [hbase]; simp

/-- C4: a transport failure (network error, 4xx/5xx status, or unparseable
payload — anything making the fetch body raise) surfaces an error message and
leaves the session state unchanged: a failed school query never overwrites a
previously stored collection, and the meal handler never mutates the stored
collection at all; a failed meal query also surfaces its error message. -/
theorem C4_transport_failure_preserves_state :
    (∀ (key : Option String) (s : Session) (n t r : String) (net : HttpResult) (e : String),
      pyTruthy key = true →
      evalFetchBody "schoolInfo" net = .error e →
      (school_search_step key s n t r net).1 = s
        ∧ Effect.errorMsg (schoolErrHead ++ e) ∈ (school_search_step key s n t r net).2)
    ∧ (∀ (key : Option String) (s : Session) (sel : String) (d now : Date)
        (net : HttpResult),
      (meal_search_step key s sel d now net).1 = s)
    ∧ (∀ (key : Option String) (now : Date) (office school : JVal)
        (date : Option String) (net : HttpResult) (e : String),
      evalFetchBody "mealServiceDietInfo" net = .error e →
      (fetch_meal_info key now office school date net).rows = []
        ∧ Effect.errorMsg (mealErrHead ++ e)
            ∈ (fetch_meal_info key now office school date net).effects) := by
  refine ⟨?_, meal_step_fst, ?_⟩
  · intro key s n t r net e hk herr
    have hf : fetch_school_info key (some n) (some t) (some r) net
        = ⟨[], [.httpGetSchool (schoolParams key (some n) (some t) (some r)),
                .errorMsg (schoolErrHead ++ e)]⟩ := by
      simp [fetch_school_info, herr]
    constructor
    · simp [school_search_step, hk, hf, dfEmpty]
    · simp [school_search_step, hk, hf, dfEmpty]
  · intro key now office school date net e herr
    constructor
    · simp [fetch_meal_info, herr]
    · simp [fetch_meal_info, herr]

/-- C4 witness: a concrete network failure against a session holding one
record leaves that record stored and surfaces the error message. -/
theorem C4_witness :
    pyTruthy (some "k") = true
    ∧ evalFetchBody "schoolInfo" HttpResult.netFail = .error "ConnectionError"
    ∧ ((school_search_step (some "k") ⟨some [sampleRow]⟩ "n" "" "" .netFail).1
          = ⟨some [sampleRow]⟩
       ∧ Effect.errorMsg (schoolErrHead ++ "ConnectionError")
           ∈ (school_search_step (some "k") ⟨some [sampleRow]⟩ "n" "" "" .netFail).2) :=
  ⟨rfl, rfl,
    C4_transport_failure_preserves_state.1 (some "k") ⟨some [sampleRow]⟩
      "n" "" "" .netFail "ConnectionError" rfl rfl⟩

/-- C5: whenever a meal request is issued, the session holds a non-empty
school collection and the two school codes of the request are read from a row
of that stored collection (the first row whose name equals the selection). -/
theorem C5_meal_request_uses_stored_row :
    ∀ (key : Option String) (s : Session) (sel : String) (d now : Date)
      (net : HttpResult) (k : Option String) (office school : JVal) (mlsv : String),
      Effect.httpGetMeal k office school mlsv ∈ (meal_search_step key s sel d now net).2 →
      ∃ rows, s.schools_df = some rows ∧ dfEmpty rows = false
        ∧ ∃ row, row ∈ rows
            ∧ pySubscriptStr row "ATPT_OFCDC_SC_CODE" = .ok office
            ∧ pySubscriptStr row "SD_SCHUL_CODE" = .ok school := by
  intro key s sel d now net k office school mlsv hmem
  rcases s with ⟨_ | rows⟩
  · simp [meal_search_step] at hmem
  by_cases hdf : dfEmpty rows = true
  · simp [meal_search_step, hdf] at hmem
  have hdf' : dfEmpty rows = false := by simpa using hdf
  by_cases hsel : sel ∈ schoolNames rows
  case neg => simp [meal_search_step, hdf', hsel] at hmem
  by_cases hq : (sel == "") = true
  · simp [meal_search_step, hdf', hsel, hq] at hmem
  have hq' : (sel == "") = false := by simpa using hq
  cases hrow : findRowByName rows sel with
  | none => simp [meal_search_step, hdf', hsel, hq', hrow] at hmem
  | some row =>
    cases hoff : pySubscriptStr row "ATPT_OFCDC_SC_CODE" with
    | error e1 => simp [meal_search_step, hdf', hsel, hq', hrow, hoff] at hmem
    | ok office1 =>
      cases hsch : pySubscriptStr row "SD_SCHUL_CODE" with
      | error e2 => simp [meal_search_step, hdf', hsel, hq', hrow, hoff, hsch] at hmem
      | ok school1 =>
        have hrowmem : row ∈ rows := by
          unfold findRowByName at hrow
          exact List.mem_of_find?_eq_some hrow
        refine ⟨rows, rfl, hdf', ?_⟩
        rcases hev : evalFetchBody "mealServiceDietInfo" net with e | rws
        · have hfr : fetch_meal_info key now office1 school1 (some (strftimeYmd d)) net
              = ⟨[], [.httpGetMeal key office1 school1 (strftimeYmd d),
                      .errorMsg (mealErrHead ++ e)]⟩ := by
            simp [fetch_meal_info, hev]
          simp [meal_search_step, hdf', hsel, hq', hrow, hoff, hsch, hfr,
            dfEmpty_nil] at hmem
          exact ⟨row, hrowmem, hmem.2.1 ▸ hoff, hmem.2.2.1 ▸ hsch⟩
        · have hfr : fetch_meal_info key now office1 school1 (some (strftimeYmd d)) net
              = ⟨rws, [.httpGetMeal key office1 school1 (strftimeYmd d)]⟩ := by
            simp [fetch_meal_info, hev]
          by_cases hdfr : dfEmpty rws = true
          · simp [meal_search_step, hdf', hsel, hq', hrow, hoff, hsch, hfr, hdfr] at hmem
            exact ⟨row, hrowmem, hmem.2.1 ▸ hoff, hmem.2.2.1 ▸ hsch⟩
          · have hdfr' : dfEmpty rws = false := by simpa using hdfr
            simp [meal_search_step, hdf', hsel, hq', hrow, hoff, hsch, hfr, hdfr',
              httpGetMeal_notMem_displayMeals] at hmem
            exact ⟨row, hrowmem, hmem.2.1 ▸ hoff, hmem.2.2.1 ▸ hsch⟩

/-- C5 witness: a concrete meal lookup against a session storing one record
issues a request whose codes come from that stored record. -/
theorem C5_witness :
    Effect.httpGetMeal (some "k") (.str "B10") (.str "7010083")
        (strftimeYmd ⟨2026, 10, 12⟩)
      ∈ (meal_search_step (some "k") ⟨some [sampleRow]⟩ "한가람고등학교"
          ⟨2026, 10, 12⟩ ⟨2026, 10, 12⟩ .netFail).2
    ∧ ∃ rows, (Session.mk (some [sampleRow])).schools_df = some rows
        ∧ dfEmpty rows = false
        ∧ ∃ row, row ∈ rows
            ∧ pySubscriptStr row "ATPT_OFCDC_SC_CODE" = .ok (.str "B10")
            ∧ pySubscriptStr row "SD_SCHUL_CODE" = .ok (.str "7010083") := by
  have hmem : Effect.httpGetMeal (some "k") (.str "B10") (.str "7010083")
        (strftimeYmd ⟨2026, 10, 12⟩)
      ∈ (meal_search_step (some "k") ⟨some [sampleRow]⟩ "한가람고등학교"
          ⟨2026, 10, 12⟩ ⟨2026, 10, 12⟩ .netFail).2 := List.Mem.head _
  exact ⟨hmem,
    C5_meal_request_uses_stored_row (some "k") ⟨some [sampleRow]⟩ "한가람고등학교"
      ⟨2026, 10, 12⟩ ⟨2026, 10, 12⟩ .netFail (some "k") (.str "B10")
      (.str "7010083") (strftimeYmd ⟨2026, 10, 12⟩) hmem⟩

/-- C6: when the payload carries the expected nested `row` array, the fetch
returns exactly that list of records, in order. -/
theorem C6_rows_returned_in_order :
    ∀ (key n t r : Option String) (status : Nat) (data si second : JVal)
      (rows : List JVal),
      status < 400 →
      pyContains data "schoolInfo" = .ok true →
      pySubscriptStr data "schoolInfo" = .ok si →
      pyIndexInt si 1 = .ok second →
      pyContains second "row" = .ok true →
      pySubscriptStr second "row" = .ok (.arr rows) →
      (fetch_school_info key n t r (.resp status (.json data))).rows = rows := by
  intro key n t r status data si second rows hst h1 h2 h3 h4 h5
  simp [fetch_school_info, evalFetchBody, h1, h2, h3, h4, h5,
    dataFrameOfRows, if_neg (by omega : ¬(400 ≤ status ∧ status < 600))]

/-- C6 witness: a concrete two-record payload comes back unchanged. -/
theorem C6_witness :
    (200 : Nat) < 400
    ∧ pyContains (.obj [("schoolInfo",
        .arr [.num 0, .obj [("row", .arr [sampleRow, .obj [("SCHUL_NM", .str "B")]])]])])
        "schoolInfo" = .ok true
    ∧ (fetch_school_info (some "k") (some "n") none none
        (rowsNet "schoolInfo" [sampleRow, .obj [("SCHUL_NM", .str "B")]])).rows
      = [sampleRow, .obj [("SCHUL_NM", .str "B")]] :=
  ⟨by omega, rfl,
    C6_rows_returned_in_order (some "k") (some "n") none none 200 _ _ _ _
      (by omega) rfl rfl rfl rfl rfl⟩

/-- C7: a successful response without the nested collection — the top-level
key absent, or the second element lacking a `row` entry — yields the empty
record set with no error surfaced, on both the school and the meal paths. -/
theorem C7_missing_collection_empty_not_error :
    (∀ (key n t r : Option String) (status : Nat) (data : JVal),
      status < 400 →
      pyContains data "schoolInfo" = .ok false →
      fetch_school_info key n t r (.resp status (.json data))
        = ⟨[], [.httpGetSchool (schoolParams key n t r)]⟩)
    ∧ (∀ (key n t r : Option String) (status : Nat) (data si second : JVal),
      status < 400 →
      pyContains data "schoolInfo" = .ok true →
      pySubscriptStr data "schoolInfo" = .ok si →
      pyIndexInt si 1 = .ok second →
      pyContains second "row" = .ok false →
      fetch_school_info key n t r (.resp status (.json data))
        = ⟨[], [.httpGetSchool (schoolParams key n t r)]⟩)
    ∧ (∀ (key : Option String) (now : Date) (office school : JVal)
        (date : Option String) (status : Nat) (data : JVal),
      status < 400 →
      pyContains data "mealServiceDietInfo" = .ok false →
      fetch_meal_info key now office school date (.resp status (.json data))
        = ⟨[], [.httpGetMeal key office school (date.getD (strftimeYmd now))]⟩)
    ∧ (∀ (key : Option String) (now : Date) (office school : JVal)
        (date : Option String) (status : Nat) (data si second : JVal),
      status < 400 →
      pyContains data "mealServiceDietInfo" = .ok true →
      pySubscriptStr data "mealServiceDietInfo" = .ok si →
      pyIndexInt si 1 = .ok second →
      pyContains second "row" = .ok false →
      fetch_meal_info key now office school date (.resp status (.json data))
        = ⟨[], [.httpGetMeal key office school (date.getD (strftimeYmd now))]⟩) := by
  refine ⟨?_, ?_, ?_, ?_⟩
  · intro key n t r status data hst h1
    simp [fetch_school_info, evalFetchBody, h1,
      if_neg (by omega : ¬(400 ≤ status ∧ status < 600))]
  · intro key n t r status data si second hst h1 h2 h3 h4
    simp [fetch_school_info, evalFetchBody, h1, h2, h3, h4,
      if_neg (by omega : ¬(400 ≤ status ∧ status < 600))]
  · intro key now office school date status data hst h1
    simp [fetch_meal_info, evalFetchBody, h1,
      if_neg (by omega : ¬(400 ≤ status ∧ status < 600))]
  · intro key now office school date status data si second hst h1 h2 h3 h4
    simp [fetch_meal_info, evalFetchBody, h1, h2, h3, h4,
      if_neg (by omega : ¬(400 ≤ status ∧ status < 600))]

/-- C7 witness: concrete no-match responses on both paths produce the empty
record set and only the request effect. -/
theorem C7_witness :
    (200 : Nat) < 400
    ∧ pyContains (.obj [("RESULT", .obj [("CODE", .str "INFO-200")])])
        "schoolInfo" = .ok false
    ∧ fetch_school_info (some "k") (some "n") none none noMatchNet
        = ⟨[], [.httpGetSchool (schoolParams (some "k") (some "n") none none)]⟩
    ∧ fetch_meal_info (some "k") ⟨2026, 10, 12⟩ (.str "B10") (.str "7010083")
        (some "20261012") noMatchNet
        = ⟨[], [.httpGetMeal (some "k") (.str "B10") (.str "7010083") "20261012"]⟩ :=
  ⟨by omega, rfl,
    C7_missing_collection_empty_not_error.1 (some "k") (some "n") none none
      200 _ (by omega) rfl,
    C7_missing_collection_empty_not_error.2.2.1 (some "k") ⟨2026, 10, 12⟩
      (.str "B10") (.str "7010083") (some "20261012") 200 _ (by omega) rfl⟩

/-- C8 counterexample: a raw menu text that already contains a newline and
the marker exactly twice is displayed with three newlines, not two - the
claim's "exactly two plain newline characters" fails on the code. -/
theorem C8_counterexample :
    countBrL "Rice\nSoup<br/>Stew<br/>Kimchi".data = 2
    ∧ ((pyReplaceBr "Rice\nSoup<br/>Stew<br/>Kimchi").data.count '\n' ≠ 2) := by
  constructor
  · decide
  · intro hcon
    have h := pyReplaceL_count_nl "Rice\nSoup<br/>Stew<br/>Kimchi".data
    rw [show ("Rice\nSoup<br/>Stew<br/>Kimchi".data.count '\n') = 1 from by decide,
      show countBrL "Rice\nSoup<br/>Stew<br/>Kimchi".data = 2 from by decide] at h
    have h2 : (pyReplaceBr "Rice\nSoup<br/>Stew<br/>Kimchi").data
        = pyReplaceL "Rice\nSoup<br/>Stew<br/>Kimchi".data := rfl
    rw [h2] at hcon
    omega

/-- C8 amended: for raw menu text containing the break marker exactly twice,
the displayed text contains exactly two newline characters in addition to
those already present in the raw text (so exactly two when the raw text has
none), and no occurrence of the marker remains. -/
theorem C8_amended_br_to_newline :
    ∀ raw : String, countBrL raw.data = 2 →
      (pyReplaceBr raw).data.count '\n' = raw.data.count '\n' + 2
      ∧ countBrL ((pyReplaceBr raw).data) = 0 := by
  intro raw h
  refine ⟨?_, pyReplaceL_no_marker raw.data⟩
  have := pyReplaceL_count_nl raw.data
  rw [h] at this
  exact this

/-- C8 witness: the spec scenario "Rice<br/>Soup<br/>Kimchi" has exactly two
markers, no raw newline, and is displayed with exactly two newlines and no
marker left. -/
theorem C8_witness :
    countBrL "Rice<br/>Soup<br/>Kimchi".data = 2
    ∧ (pyReplaceBr "Rice<br/>Soup<br/>Kimchi").data.count '\n'
        = "Rice<br/>Soup<br/>Kimchi".data.count '\n' + 2
    ∧ countBrL ((pyReplaceBr "Rice<br/>Soup<br/>Kimchi").data) = 0 := by
  have h := C8_amended_br_to_newline "Rice<br/>Soup<br/>Kimchi" (by decide)
  exact ⟨by decide, h.1, h.2⟩

/-- C9: when the caller of the meal fetch supplies no date, the MLSV_YMD
value of the outbound request is the current system date rendered as
YYYYMMDD (zero-padded, as the concrete instance shows). -/
theorem C9_default_date_today :
    ∀ (key : Option String) (now : Date) (office school : JVal) (net : HttpResult),
      (fetch_meal_info key now office school none net).effects.head?
        = some (.httpGetMeal key office school (strftimeYmd now))
      ∧ strftimeYmd ⟨2026, 1, 5⟩ = "20260105" := by
  intro key now office school net
  refine ⟨?_, by decide⟩
  rcases hev : evalFetchBody "mealServiceDietInfo" net with e | rws <;>
    simp [fetch_meal_info, hev]

/-- C10: the two fetch functions are total at the HTTP boundary - every
exception from the request, the status check, JSON parsing or payload
navigation (including a top-level value with fewer than two elements) is
caught and converted into an empty record set plus an error message - and
the returned record set alone cannot distinguish such a failure from a
genuinely empty result. -/
theorem C10_fetch_total_and_conflating :
    (∀ (key n t r : Option String) (net : HttpResult) (e : String),
      evalFetchBody "schoolInfo" net = .error e →
      fetch_school_info key n t r net
        = ⟨[], [.httpGetSchool (schoolParams key n t r),
                .errorMsg (schoolErrHead ++ e)]⟩)
    ∧ (∀ (key : Option String) (now : Date) (office school : JVal)
        (date : Option String) (net : HttpResult) (e : String),
      evalFetchBody "mealServiceDietInfo" net = .error e →
      fetch_meal_info key now office school date net
        = ⟨[], [.httpGetMeal key office school (date.getD (strftimeYmd now)),
                .errorMsg (mealErrHead ++ e)]⟩)
    ∧ (∀ (key n t r : Option String) (x : JVal),
      (fetch_school_info key n t r
          (.resp 200 (.json (.obj [("schoolInfo", .arr [x])])))).rows
        = (fetch_school_info key n t r (.resp 200 (.json (.obj [])))).rows) := by
  refine ⟨?_, ?_, ?_⟩
  · intro key n t r net e herr
    simp [fetch_school_info, herr]
  · intro key now office school date net e herr
    simp [fetch_meal_info, herr]
  · intro key n t r x
    simp [fetch_school_info, evalFetchBody, pyContains, pySubscriptStr,
      pyIndexInt]

/-- C10 witness: a concrete network failure is caught on both paths. -/
theorem C10_witness :
    evalFetchBody "schoolInfo" HttpResult.netFail = .error "ConnectionError"
    ∧ fetch_school_info (some "k") (some "n") none none .netFail
        = ⟨[], [.httpGetSchool (schoolParams (some "k") (some "n") none none),
                .errorMsg (schoolErrHead ++ "ConnectionError")]⟩ :=
  ⟨rfl,
    C10_fetch_total_and_conflating.1 (some "k") (some "n") none none
      .netFail "ConnectionError" rfl⟩

end App